import Mathlib

/-!
Shallow embedding of the clock-domain resolution and subsystem-composition
logic of `src/litex/colorlight_i5.py` (classes `_CRG` and `BaseSoC`, and the
argument handling of `main`).

Frequencies are rationals (hertz); phases are rationals (degrees); the
`margin` of a clock output is `Option ℚ` — `none` where the source leaves the
library default, `some 0` where the source passes `margin=0` explicitly.
-/

/-- A clock-domain specification: name, target frequency (Hz), phase offset
(degrees) and explicit margin, as set up by `ECP5PLL.create_clkout` calls in
`_CRG.__init__`. -/
structure ClockDomainSpec where
  name : String
  freq : ℚ
  phase : ℚ
  margin : Option ℚ
  deriving Repr, DecidableEq

/-- A PLL plan: one generator with its input reference frequency and the
ordered list of clock outputs requested from it. -/
structure PllPlan where
  name : String
  clkin_freq : ℚ
  outputs : List ClockDomainSpec
  deriving Repr, DecidableEq

/-- The parameters of `_CRG.__init__` that the clock logic reads. -/
structure CrgConfig where
  sys_clk_freq : ℚ
  use_internal_osc : Bool
  with_video_pll : Bool
  sdram_rate : String
  deriving Repr, DecidableEq

/-- Reference clock frequency: 25 MHz from the `clk25` pad, or the internal
oscillator `OSCG` at `310e6 / div` with `div = 5` (`_CRG.__init__`,
lines 55–62). -/
def clk_freq (cfg : CrgConfig) : ℚ :=
  if cfg.use_internal_osc then 310000000 / 5 else 25000000

/-- The main PLL of `_CRG.__init__` (lines 67–75): always a "sys" output at
`sys_clk_freq`; with `sdram_rate == "1:2"` also "sys2x" and "sys2x_ps"
(2× frequency, the latter at 180°), otherwise "sys_ps" (same frequency,
180°). -/
def core_pll (cfg : CrgConfig) : PllPlan :=
  { name := "pll"
    clkin_freq := clk_freq cfg
    outputs :=
      { name := "sys", freq := cfg.sys_clk_freq, phase := 0, margin := none } ::
        (if cfg.sdram_rate = "1:2" then
          [ { name := "sys2x", freq := 2 * cfg.sys_clk_freq, phase := 0, margin := none },
            { name := "sys2x_ps", freq := 2 * cfg.sys_clk_freq, phase := 180, margin := none } ]
        else
          [ { name := "sys_ps", freq := cfg.sys_clk_freq, phase := 180, margin := none } ]) }

/-- The video PLL of `_CRG.__init__` (lines 78–85): "hdmi" at 40 MHz and
"hdmi5x" at 200 MHz, both with `margin=0`, fed from the same reference
clock. -/
def video_pll_plan (cfg : CrgConfig) : PllPlan :=
  { name := "video_pll"
    clkin_freq := clk_freq cfg
    outputs :=
      [ { name := "hdmi", freq := 40000000, phase := 0, margin := some 0 },
        { name := "hdmi5x", freq := 200000000, phase := 0, margin := some 0 } ] }

/-- All PLLs instantiated by `_CRG.__init__`: the main PLL, plus the video
PLL exactly when `with_video_pll` is set. -/
def crg_plls (cfg : CrgConfig) : List PllPlan :=
  core_pll cfg :: (if cfg.with_video_pll then [video_pll_plan cfg] else [])

/-- All clock domains created by `_CRG.__init__`, in creation order. -/
def crg_domains (cfg : CrgConfig) : List ClockDomainSpec :=
  (crg_plls cfg).flatMap PllPlan.outputs

/-- The fixed maximum output frequency of the generator technology
(the documented 400 MHz output ceiling of the ECP5 PLL); used only to bound
hypotheses, since the source never checks it. -/
def generator_max_freq : ℚ := 400000000

/-- The fixed output capacity of one generator, the upper bound of the §3 invariant ("e.g. ≤ 4 per generator in this design"). -/
def generator_capacity : ℕ := 4

/-- Model of the Python `str.lower()` call over the ASCII board identifiers, written
structurally over the character list so it evaluates by reduction. -/
def lower_string (s : String) : String := ⟨s.data.map Char.toLower⟩

/-- Model of the Python `str.upper()` call, used for the build identifier string. -/
def upper_string (s : String) : String := ⟨s.data.map Char.toUpper⟩

/-- The parameters of `BaseSoC.__init__` that the composition logic reads.
`integrated_main_ram_size` stands for the attribute `SoCCore.__init__` leaves
on the object; `l2_size` models `kwargs.get("l2_size", 8192)`. -/
structure SocConfig where
  board : String
  revision : String
  sys_clk_freq : ℚ
  use_internal_osc : Bool
  sdram_rate : String
  with_video_terminal : Bool
  with_video_framebuffer : Bool
  integrated_main_ram_size : ℕ
  l2_size : ℕ
  deriving Repr, DecidableEq

/-- The `_CRG` arguments built in `BaseSoC.__init__` (lines 104–109):
`with_video_pll` is the disjunction of the two display flags. -/
def crg_config (cfg : SocConfig) : CrgConfig :=
  { sys_clk_freq := cfg.sys_clk_freq
    use_internal_osc := cfg.use_internal_osc
    with_video_pll := cfg.with_video_terminal || cfg.with_video_framebuffer
    sdram_rate := cfg.sdram_rate }

/-- Kinds of subsystems `BaseSoC.__init__` can attach to the SoC.
`videoFramebuffer` is in the vocabulary so its absence can be stated; the
source never emits it. -/
inductive SubsystemKind
  | core
  | spiflash
  | sdram
  | videoTerminal
  | videoFramebuffer
  deriving Repr, DecidableEq

/-- A subsystem descriptor: its kind, the clock-domain names it references,
and its kind-specific string parameters. -/
structure SubsystemDescriptor where
  kind : SubsystemKind
  clock_domains : List String
  params : List (String × String)
  deriving Repr, DecidableEq

/-- Outcome of the flash-module selection in `BaseSoC.__init__`
(lines 115–118): two bare string comparisons bind `SpiFlashModule`; for any
other board the name is left unbound and line 118 raises an implicit Python
`NameError`, modelled by the `nameError` constructor. -/
inductive FlashResolution
  | module (name : String)
  | nameError
  deriving Repr, DecidableEq

/-- Flash-chip selection by board identifier, exactly as written in the
source: `"i5"` → `GD25Q16`, `"i9"` → `W25Q64`, anything else crashes. -/
def spi_flash_module (board : String) : FlashResolution :=
  if board = "i5" then .module "GD25Q16"
  else if board = "i9" then .module "W25Q64"
  else .nameError

/-- Errors the embedded composition can surface. `nameError` is the implicit
Python `NameError` crash (the carried string is the unbound name);
`mutuallyExclusiveOptions` is the `argparse` mutually-exclusive-group error
raised by `main` when both display flags are passed. -/
inductive ComposeError
  | nameError (missing : String)
  | mutuallyExclusiveOptions
  deriving Repr, DecidableEq

/-- The final artifact: the PLL plans, the clock domains they produce, and
the ordered list of subsystem descriptors. -/
structure CompositionPlan where
  plls : List PllPlan
  domains : List ClockDomainSpec
  descriptors : List SubsystemDescriptor
  deriving Repr, DecidableEq

instance : DecidableEq (Except ComposeError CompositionPlan) := fun a b =>
  match a, b with
  | .ok a, .ok b => decidable_of_iff (a = b) (by simp)
  | .error a, .error b => decidable_of_iff (a = b) (by simp)
  | .ok _, .error _ => isFalse (by simp)
  | .error _, .ok _ => isFalse (by simp)

/-- The mandatory core subsystem (`SoCCore.__init__`, line 112), clocked by
"sys" and tagged with the build identifier string. -/
def core_descriptor (board : String) : SubsystemDescriptor :=
  { kind := .core
    clock_domains := ["sys"]
    params := [("ident", "LiteX SoC on Colorlight " ++ upper_string board)] }

/-- The boot-flash descriptor (`add_spi_flash`, line 118). -/
def flash_descriptor (moduleName : String) : SubsystemDescriptor :=
  { kind := .spiflash
    clock_domains := ["sys"]
    params := [("mode", "1x"), ("module", moduleName)] }

/-- The SDRAM descriptors (lines 121–129): emitted only when no integrated
main RAM is configured; the PHY class and the extra clock domains it samples
with follow `sdram_rate`. -/
def sdram_descriptors (cfg : SocConfig) : List SubsystemDescriptor :=
  if cfg.integrated_main_ram_size = 0 then
    [ { kind := .sdram
        clock_domains :=
          "sys" :: (if cfg.sdram_rate = "1:2" then ["sys2x", "sys2x_ps"] else ["sys_ps"])
        params :=
          [ ("phy", if cfg.sdram_rate = "1:2" then "HalfRateGENSDRPHY" else "GENSDRPHY"),
            ("module", "M12L64322A"),
            ("l2_cache_size", toString cfg.l2_size) ] } ]
  else []

/-- The video descriptors (lines 133–136): whenever either display flag is
set, a `VideoHDMIPHY` on clock domain "hdmi" (whose serializer runs on
"hdmi5x") plus `add_video_terminal` with fixed 800x600@60Hz timings — always
the terminal, for both flags. -/
def video_descriptors (cfg : SocConfig) : List SubsystemDescriptor :=
  if cfg.with_video_terminal || cfg.with_video_framebuffer then
    [ { kind := .videoTerminal
        clock_domains := ["hdmi", "hdmi5x"]
        params := [("timings", "800x600@60Hz")] } ]
  else []

/-- `BaseSoC.__init__` as a plan builder: lowercase the board, build the CRG,
attach the core, flash, SDRAM and video subsystems in source order. The
flash `NameError` aborts composition, so no partial plan escapes. -/
def base_soc (cfg : SocConfig) : Except ComposeError CompositionPlan :=
  let board := lower_string cfg.board
  let crgCfg := crg_config cfg
  match spi_flash_module board with
  | .nameError => .error (.nameError "SpiFlashModule")
  | .module m =>
      .ok { plls := crg_plls crgCfg
            domains := crg_domains crgCfg
            descriptors :=
              core_descriptor board :: flash_descriptor m ::
                (sdram_descriptors cfg ++ video_descriptors cfg) }

/-- How the `main` entry point handles the display flags (lines 148–150):
`argparse` puts `--with-video-terminal` and `--with-video-framebuffer` in a
mutually exclusive group, so passing both fails before `BaseSoC` is ever
constructed. -/
def main_plan (cfg : SocConfig) : Except ComposeError CompositionPlan :=
  if cfg.with_video_terminal && cfg.with_video_framebuffer then
    .error .mutuallyExclusiveOptions
  else
    base_soc cfg

def crg_12_60 : CrgConfig :=
  { sys_clk_freq := 60000000, use_internal_osc := false, with_video_pll := false,
    sdram_rate := "1:2" }

def crg_11_60 : CrgConfig :=
  { sys_clk_freq := 60000000, use_internal_osc := false, with_video_pll := false,
    sdram_rate := "1:1" }

def cfg_i5 : SocConfig :=
  { board := "i5", revision := "7.0", sys_clk_freq := 60000000,
    use_internal_osc := false, sdram_rate := "1:1",
    with_video_terminal := true, with_video_framebuffer := false,
    integrated_main_ram_size := 0, l2_size := 8192 }

def crg_neg : CrgConfig :=
  { sys_clk_freq := -1, use_internal_osc := false, with_video_pll := false,
    sdram_rate := "1:1" }

def empty_plan : CompositionPlan := { plls := [], domains := [], descriptors := [] }

def plan_i5 : CompositionPlan := (base_soc cfg_i5).toOption.getD empty_plan

def cfg_plain : SocConfig := { cfg_i5 with with_video_terminal := false }

def plan_plain : CompositionPlan := (base_soc cfg_plain).toOption.getD empty_plan

def cfg_i7 : SocConfig := { cfg_i5 with board := "i7" }

def cfg_fb : SocConfig :=
  { cfg_i5 with with_video_terminal := false, with_video_framebuffer := true }

theorem crg_domains_eq (cfg : CrgConfig) :
    crg_domains cfg =
      ({ name := "sys", freq := cfg.sys_clk_freq, phase := 0, margin := none } ::
        (if cfg.sdram_rate = "1:2" then
          [ { name := "sys2x", freq := 2 * cfg.sys_clk_freq, phase := 0, margin := none },
            { name := "sys2x_ps", freq := 2 * cfg.sys_clk_freq, phase := 180, margin := none } ]
        else
          [ { name := "sys_ps", freq := cfg.sys_clk_freq, phase := 180, margin := none } ])) ++
      (if cfg.with_video_pll then
        [ { name := "hdmi", freq := 40000000, phase := 0, margin := some 0 },
          { name := "hdmi5x", freq := 200000000, phase := 0, margin := some 0 } ]
      else []) := by
  cases hv : cfg.with_video_pll <;>
    simp [crg_domains, crg_plls, core_pll, video_pll_plan, hv]

theorem crg_plls_capacity (cfg : CrgConfig) :
    ∀ pll ∈ crg_plls cfg, pll.outputs.length ≤ generator_capacity := by
  intro pll hp
  by_cases h12 : cfg.sdram_rate = "1:2" <;>
    cases hv : cfg.with_video_pll <;>
    simp [crg_plls, core_pll, video_pll_plan, h12, hv] at hp <;>
    rcases hp with rfl | rfl <;>
    simp [generator_capacity]

/-- Claim C1: for every target frequency that is positive and at most the
generator ceiling, the resolved domains start with a "sys" domain at exactly
that frequency, and every domain named "sys" has that frequency. -/
theorem C1_sys_domain_exact (cfg : CrgConfig)
    (_hpos : 0 < cfg.sys_clk_freq) (_hceil : cfg.sys_clk_freq ≤ generator_max_freq) :
    (crg_domains cfg).head? =
      some { name := "sys", freq := cfg.sys_clk_freq, phase := 0, margin := none } ∧
    ∀ d ∈ crg_domains cfg, d.name = "sys" → d.freq = cfg.sys_clk_freq := by
  rw [crg_domains_eq]
  constructor
  · simp
  · by_cases h12 : cfg.sdram_rate = "1:2" <;>
      cases hv : cfg.with_video_pll <;>
      simp [h12, hv]

theorem C1_witness :
    0 < crg_11_60.sys_clk_freq ∧ crg_11_60.sys_clk_freq ≤ generator_max_freq ∧
    (crg_domains crg_11_60).head? =
      some { name := "sys", freq := crg_11_60.sys_clk_freq, phase := 0, margin := none } :=
  ⟨by norm_num [crg_11_60], by norm_num [crg_11_60, generator_max_freq],
   (C1_sys_domain_exact crg_11_60 (by norm_num [crg_11_60])
     (by norm_num [crg_11_60, generator_max_freq])).1⟩

/-- Claim C2: rate "1:2" yields "sys2x" and "sys2x_ps" (both at twice the
target frequency, the latter at 180°) and no "sys_ps"; rate "1:1" yields only
"sys_ps" (target frequency, 180°) and neither double-rate domain; the two
shapes never coexist. -/
theorem C2_memory_timing_shapes (cfg : CrgConfig) :
    (cfg.sdram_rate = "1:2" →
      { name := "sys2x", freq := 2 * cfg.sys_clk_freq, phase := 0, margin := none }
        ∈ crg_domains cfg ∧
      { name := "sys2x_ps", freq := 2 * cfg.sys_clk_freq, phase := 180, margin := none }
        ∈ crg_domains cfg ∧
      ∀ d ∈ crg_domains cfg, d.name ≠ "sys_ps") ∧
    (cfg.sdram_rate = "1:1" →
      { name := "sys_ps", freq := cfg.sys_clk_freq, phase := 180, margin := none }
        ∈ crg_domains cfg ∧
      ∀ d ∈ crg_domains cfg, d.name ≠ "sys2x" ∧ d.name ≠ "sys2x_ps") ∧
    ¬ ((∃ d ∈ crg_domains cfg, d.name = "sys_ps") ∧
       (∃ d ∈ crg_domains cfg, d.name = "sys2x" ∨ d.name = "sys2x_ps")) := by
  rw [crg_domains_eq]
  by_cases h12 : cfg.sdram_rate = "1:2" <;>
    cases hv : cfg.with_video_pll <;>
    simp [h12, hv]

theorem C2_witness :
    (crg_12_60.sdram_rate = "1:2" ∧
      { name := "sys2x", freq := 120000000, phase := 0, margin := none }
        ∈ crg_domains crg_12_60) ∧
    (crg_11_60.sdram_rate = "1:1" ∧
      { name := "sys_ps", freq := 60000000, phase := 180, margin := none }
        ∈ crg_domains crg_11_60) :=
  ⟨⟨rfl, by
      have h := ((C2_memory_timing_shapes crg_12_60).1 rfl).1
      norm_num [crg_12_60] at h ⊢
      exact h⟩,
   ⟨rfl, ((C2_memory_timing_shapes crg_11_60).2.1 rfl).1⟩⟩

/-- Claim C3: with exactly one display flag set, the CRG instantiates exactly
one additional PLL, distinct from the core PLL, whose two outputs are the
pixel clock ("hdmi", 40 MHz) and the serializer clock ("hdmi5x"), the latter
at 5 times the pixel frequency; the resolved domains are the core domains
plus exactly these two. -/
theorem C3_display_domains (cfg : SocConfig)
    (h : cfg.with_video_terminal ≠ cfg.with_video_framebuffer) :
    crg_plls (crg_config cfg) =
      [core_pll (crg_config cfg), video_pll_plan (crg_config cfg)] ∧
    video_pll_plan (crg_config cfg) ≠ core_pll (crg_config cfg) ∧
    crg_domains (crg_config cfg) =
      crg_domains { crg_config cfg with with_video_pll := false } ++
        (video_pll_plan (crg_config cfg)).outputs ∧
    ∃ px sl, (video_pll_plan (crg_config cfg)).outputs = [px, sl] ∧
      px.name = "hdmi" ∧ px.freq = 40000000 ∧
      sl.name = "hdmi5x" ∧ sl.freq = 5 * px.freq := by
  have hv : (crg_config cfg).with_video_pll = true := by
    cases ht : cfg.with_video_terminal <;> cases hf : cfg.with_video_framebuffer <;>
      simp_all [crg_config]
  refine ⟨?_, ?_, ?_, ?_⟩
  · simp [crg_plls, hv]
  · simp [core_pll, video_pll_plan]
  · simp [crg_domains, crg_plls, core_pll, video_pll_plan, clk_freq, hv]
  · exact ⟨_, _, rfl, rfl, rfl, rfl, by norm_num [video_pll_plan]⟩

theorem C3_witness :
    cfg_i5.with_video_terminal ≠ cfg_i5.with_video_framebuffer ∧
    crg_plls (crg_config cfg_i5) =
      [core_pll (crg_config cfg_i5), video_pll_plan (crg_config cfg_i5)] :=
  ⟨by decide, (C3_display_domains cfg_i5 (by decide)).1⟩

/-- Claim C4: with both display flags set, the `main` flow fails with the
mutually-exclusive-options error before any plan is composed, for every
combination of the other parameters. -/
theorem C4_mutually_exclusive (cfg : SocConfig)
    (ht : cfg.with_video_terminal = true) (hf : cfg.with_video_framebuffer = true) :
    main_plan cfg = .error .mutuallyExclusiveOptions := by
  simp [main_plan, ht, hf]

theorem C4_witness :
    ({ cfg_i5 with with_video_framebuffer := true } : SocConfig).with_video_terminal = true ∧
    ({ cfg_i5 with with_video_framebuffer := true } : SocConfig).with_video_framebuffer = true ∧
    main_plan { cfg_i5 with with_video_framebuffer := true } =
      .error .mutuallyExclusiveOptions :=
  ⟨rfl, rfl, C4_mutually_exclusive { cfg_i5 with with_video_framebuffer := true } rfl rfl⟩

/-- Claim C5 counterexample: at `target_sys_freq = -1 ≤ 0` the resolver does
not fail — `_CRG.__init__` performs no range check and still produces the
full clock plan, with "sys" at the nonsensical frequency. -/
theorem C5_counterexample :
    crg_neg.sys_clk_freq ≤ 0 ∧
    crg_domains crg_neg =
      [ { name := "sys", freq := -1, phase := 0, margin := none },
        { name := "sys_ps", freq := -1, phase := 180, margin := none } ] :=
  ⟨by norm_num [crg_neg], rfl⟩

/-- Claim C5 amended: for `target_sys_freq ≤ 0` or above the generator
ceiling, core-domain resolution does not fail: the source validates nothing
and produces the usual plan shape with "sys" at the given frequency. -/
theorem C5_no_validation (cfg : CrgConfig)
    (_h : cfg.sys_clk_freq ≤ 0 ∨ generator_max_freq < cfg.sys_clk_freq) :
    (crg_domains cfg).head? =
      some { name := "sys", freq := cfg.sys_clk_freq, phase := 0, margin := none } ∧
    (crg_domains cfg).length =
      (if cfg.sdram_rate = "1:2" then 3 else 2) +
        (if cfg.with_video_pll then 2 else 0) := by
  rw [crg_domains_eq]
  by_cases h12 : cfg.sdram_rate = "1:2" <;>
    cases hv : cfg.with_video_pll <;>
    simp [h12, hv]

theorem C5_witness :
    (crg_neg.sys_clk_freq ≤ 0 ∨ generator_max_freq < crg_neg.sys_clk_freq) ∧
    (crg_domains crg_neg).head? =
      some { name := "sys", freq := crg_neg.sys_clk_freq, phase := 0, margin := none } :=
  ⟨Or.inl (by norm_num [crg_neg]),
   (C5_no_validation crg_neg (Or.inl (by norm_num [crg_neg]))).1⟩

/-- Claim C6: every PLL plan in an emitted composition plan requests at most
`generator_capacity` outputs — the core PLL requests 2 or 3 and the video PLL
2 — so the §3 capacity invariant holds of every plan that is added and the
capacity-violation failure is unreachable. -/
theorem C6_capacity (cfg : SocConfig) (p : CompositionPlan)
    (h : base_soc cfg = .ok p) :
    ∀ pll ∈ p.plls, pll.outputs.length ≤ generator_capacity := by
  cases hm : spi_flash_module (lower_string cfg.board) with
  | nameError => simp [base_soc, hm] at h
  | module m =>
      simp [base_soc, hm] at h
      subst h
      exact crg_plls_capacity _

theorem C6_witness :
    base_soc cfg_i5 = .ok plan_i5 ∧
    ∀ pll ∈ plan_i5.plls, pll.outputs.length ≤ generator_capacity :=
  ⟨by decide, C6_capacity cfg_i5 plan_i5 (by decide)⟩

/-- Claim C7: in every emitted composition plan, the mandatory core
descriptor is first, and every clock-domain name any descriptor references is
present among the resolved domains of the plan (which all exist before any
descriptor is attached, so no descriptor precedes a domain it needs). -/
theorem C7_ordering (cfg : SocConfig) (p : CompositionPlan)
    (h : base_soc cfg = .ok p) :
    p.descriptors.head?.map SubsystemDescriptor.kind = some .core ∧
    ∀ d ∈ p.descriptors, ∀ n ∈ d.clock_domains,
      n ∈ p.domains.map ClockDomainSpec.name := by
  cases hm : spi_flash_module (lower_string cfg.board) with
  | nameError => simp [base_soc, hm] at h
  | module m =>
      simp [base_soc, hm] at h
      subst h
      refine ⟨by simp [core_descriptor], ?_⟩
      intro d hd n hn
      by_cases h12 : cfg.sdram_rate = "1:2" <;>
        by_cases hv : (cfg.with_video_terminal || cfg.with_video_framebuffer) = true <;>
        by_cases hr : cfg.integrated_main_ram_size = 0 <;>
        simp_all [crg_domains_eq, crg_config, core_descriptor, flash_descriptor,
          sdram_descriptors, video_descriptors] <;>
        rcases hd with rfl | rfl | rfl | rfl <;>
        simp_all <;>
        tauto

theorem C7_witness :
    base_soc cfg_i5 = .ok plan_i5 ∧
    plan_i5.descriptors.head?.map SubsystemDescriptor.kind = some .core :=
  ⟨by decide, (C7_ordering cfg_i5 plan_i5 (by decide)).1⟩

/-- Claim C8: with both display flags unset, the plan has no display clock
domains, a single (core) PLL and no display descriptor; and setting one
display flag extends the very same plan by exactly the video PLL, its two
domains, and the video descriptor, leaving the rest unchanged. -/
theorem C8_no_display (cfg : SocConfig) (p : CompositionPlan)
    (ht : cfg.with_video_terminal = false) (hf : cfg.with_video_framebuffer = false)
    (h : base_soc cfg = .ok p) :
    (∀ d ∈ p.domains, d.name ≠ "hdmi" ∧ d.name ≠ "hdmi5x") ∧
    p.plls = [core_pll (crg_config cfg)] ∧
    (∀ d ∈ p.descriptors, d.kind ≠ .videoTerminal ∧ d.kind ≠ .videoFramebuffer) ∧
    base_soc { cfg with with_video_terminal := true } =
      .ok { plls := p.plls ++ [video_pll_plan (crg_config cfg)],
            domains := p.domains ++ (video_pll_plan (crg_config cfg)).outputs,
            descriptors := p.descriptors ++
              [ { kind := .videoTerminal, clock_domains := ["hdmi", "hdmi5x"],
                  params := [("timings", "800x600@60Hz")] } ] } := by
  cases hm : spi_flash_module (lower_string cfg.board) with
  | nameError => simp [base_soc, hm] at h
  | module m =>
      simp [base_soc, hm] at h
      subst h
      refine ⟨?_, ?_, ?_, ?_⟩
      · intro d hd
        by_cases h12 : cfg.sdram_rate = "1:2" <;>
          simp_all [crg_domains_eq, crg_config, ht, hf] <;>
          rcases hd with rfl | rfl | rfl <;> simp
      · simp [crg_plls, crg_config, ht, hf]
      · intro d hd
        by_cases h12 : cfg.sdram_rate = "1:2" <;>
          by_cases hr : cfg.integrated_main_ram_size = 0 <;>
          simp_all [core_descriptor, flash_descriptor, sdram_descriptors,
            video_descriptors, ht, hf] <;>
          rcases hd with rfl | rfl | rfl <;> simp
      · simp [base_soc, hm, crg_config, crg_domains, crg_plls, core_pll,
          video_pll_plan, clk_freq, sdram_descriptors, video_descriptors,
          core_descriptor, flash_descriptor, ht, hf]

theorem C8_witness :
    cfg_plain.with_video_terminal = false ∧
    cfg_plain.with_video_framebuffer = false ∧
    base_soc cfg_plain = .ok plan_plain ∧
    plan_plain.plls = [core_pll (crg_config cfg_plain)] :=
  ⟨rfl, rfl, by decide,
   (C8_no_display cfg_plain plan_plain rfl rfl (by decide)).2.1⟩

/-- Claim C9 counterexample: the board identifier "i7" has no table entry;
selection hits the implicit `NameError` crash (the unbound `SpiFlashModule`
name), not an explicit fallback error — the code has no explicit
unknown-board error path at all. -/
theorem C9_counterexample :
    spi_flash_module "i7" = FlashResolution.nameError ∧
    base_soc cfg_i7 = .error (.nameError "SpiFlashModule") :=
  ⟨rfl, by decide⟩

/-- Claim C9 amended: chip-profile selection is by direct string comparison
on the lowercased identifier — "i5" picks GD25Q16 and "i9" picks W25Q64 —
and every other identifier leaves the module name unbound, so composition
crashes with an implicit `NameError` rather than failing with an explicit
fallback error. -/
theorem C9_flash_selection (board : String)
    (h5 : board ≠ "i5") (h9 : board ≠ "i9") :
    spi_flash_module "i5" = .module "GD25Q16" ∧
    spi_flash_module "i9" = .module "W25Q64" ∧
    spi_flash_module board = .nameError := by
  refine ⟨rfl, rfl, ?_⟩
  simp [spi_flash_module, h5, h9]

theorem C9_witness :
    ("i7" : String) ≠ "i5" ∧ ("i7" : String) ≠ "i9" ∧
    spi_flash_module "i7" = .nameError :=
  ⟨by decide, by decide,
   (C9_flash_selection "i7" (by decide) (by decide)).2.2⟩

/-- Claim C10: a framebuffer-only configuration composes to exactly the same
plan as the terminal-only configuration — the emitted display subsystem is
the video terminal with fixed 800x600@60Hz timings on the "hdmi" domain —
and no plan ever contains a distinct framebuffer descriptor. -/
theorem C10_framebuffer_is_terminal (cfg : SocConfig)
    (hf : cfg.with_video_framebuffer = true) (ht : cfg.with_video_terminal = false) :
    base_soc { cfg with with_video_terminal := true, with_video_framebuffer := false } =
      base_soc cfg ∧
    video_descriptors cfg =
      [ { kind := .videoTerminal, clock_domains := ["hdmi", "hdmi5x"],
          params := [("timings", "800x600@60Hz")] } ] ∧
    ∀ p, base_soc cfg = .ok p →
      ∀ d ∈ p.descriptors, d.kind ≠ .videoFramebuffer := by
  refine ⟨?_, ?_, ?_⟩
  · cases hm : spi_flash_module (lower_string cfg.board) <;>
      simp [base_soc, hm, crg_config, crg_domains, crg_plls, core_pll,
        video_pll_plan, clk_freq, sdram_descriptors, video_descriptors,
        core_descriptor, flash_descriptor, ht, hf]
  · simp [video_descriptors, hf]
  · intro p h d hd
    cases hm : spi_flash_module (lower_string cfg.board) with
    | nameError => simp [base_soc, hm] at h
    | module m =>
        simp [base_soc, hm] at h
        subst h
        by_cases h12 : cfg.sdram_rate = "1:2" <;>
          by_cases hr : cfg.integrated_main_ram_size = 0 <;>
          simp_all [core_descriptor, flash_descriptor, sdram_descriptors,
            video_descriptors, ht, hf] <;>
          rcases hd with rfl | rfl | rfl | rfl <;> simp

theorem C10_witness :
    cfg_fb.with_video_framebuffer = true ∧ cfg_fb.with_video_terminal = false ∧
    video_descriptors cfg_fb =
      [ { kind := .videoTerminal, clock_domains := ["hdmi", "hdmi5x"],
          params := [("timings", "800x600@60Hz")] } ] :=
  ⟨rfl, rfl, (C10_framebuffer_is_terminal cfg_fb rfl rfl).2.1⟩
